import Mathlib

/-!
Shallow embedding, in Lean 4, of the recipe-extraction pipeline of the
`recipe-reader` repository, together with theorems settling the frozen
claims about its specification.

Conventions used throughout:
* Python `Optional[T]` becomes `Option T`; Python `int` becomes `Int`;
  Python `float` becomes `ℚ` (the arithmetic appearing in the claims is
  exact decimal arithmetic, far from any binary rounding boundary).
* Fallible Python code (raising exceptions) returns `Except String _`.
* Wall-clock values (`processing_time`, timestamps) and process identity
  (`uuid`) are not modelled: no claim mentions them.
* External collaborators (the HTTP client, the Gemini model, PIL, the
  MD5 hash of `hashlib`, the base64 decoder) are modelled at their
  interface, as explicitly noted at each site.
-/

/-! ### String helpers

Small executable counterparts of the Python string operations used by the
sources (`str.count`, `in`, `str.split`, `re.sub` with literal
alternations, whitespace collapapsing). -/

/-- Case-sensitive prefix test on character lists (all the string
helpers below recurse structurally on `List Char`, so that concrete
witnesses evaluate inside the kernel). -/
def startsWithL : List Char → List Char → Bool
  | _, [] => true
  | [], _ :: _ => false
  | c :: cs, p :: ps => c == p && startsWithL cs ps

/-- Python `s.startswith(pre)`. -/
def pyStartsWith (s pre : String) : Bool :=
  startsWithL s.data pre.data

/-- Python `s.lower()` (ASCII case folding; the Hebrew script in the
sources is uncased). -/
def pyLower (s : String) : String :=
  String.mk (s.data.map Char.toLower)

/-- Python `s.strip()`: drop leading and trailing whitespace. -/
def pyStrip (s : String) : String :=
  String.mk (((s.data.dropWhile Char.isWhitespace).reverse.dropWhile
    Char.isWhitespace).reverse)

/-- Python `s.split(sep)` for a non-empty separator. -/
def pySplitOn (s sep : String) : List String :=
  go s.data s.length []
where
  go (cs : List Char) (fuel : Nat) (cur : List Char) : List String :=
    match fuel, cs with
    | _, [] => [String.mk cur.reverse]
    | 0, rest => [String.mk (cur.reverse ++ rest)]
    | fuel + 1, c :: rest =>
      if startsWithL (c :: rest) sep.data ∧ sep ≠ "" then
        String.mk cur.reverse :: go ((c :: rest).drop sep.length) fuel []
      else go rest fuel (c :: cur)

/-- The maximal runs of characters satisfying `keep`, in order: Python
`s.split()` is `tokenizeBy (¬ isWhitespace)`, and the `\b`-word
extraction is `tokenizeBy isWordChar`. -/
def tokenizeBy (keep : Char → Bool) (s : String) : List String :=
  go s.data []
where
  emit (cur : List Char) (rest : List String) : List String :=
    if cur.isEmpty then rest else String.mk cur.reverse :: rest
  go : List Char → List Char → List String
    | [], cur => emit cur []
    | c :: cs, cur =>
      if keep c then go cs (c :: cur)
      else emit cur (go cs [])

/-- Number of non-overlapping occurrences of `pat` in `s`, scanning left to
right: Python `s.count(pat)` for a non-empty `pat`. -/
def substrCount (s pat : String) : Nat :=
  if pat = "" then 0 else go s.data s.length
where
  go (cs : List Char) (fuel : Nat) : Nat :=
    match fuel, cs with
    | _, [] => 0
    | 0, _ => 0
    | fuel + 1, c :: rest =>
      if startsWithL (c :: rest) pat.data then
        1 + go ((c :: rest).drop pat.length) fuel
      else go rest fuel

/-- Python `pat in s` (substring containment), for a non-empty `pat`. -/
def containsSub (s pat : String) : Bool :=
  substrCount s pat > 0

/-- Python `' '.join(s.split())`: split on whitespace runs, drop empties,
join with single spaces.  This both collapses runs and strips the ends. -/
def joinSplit (s : String) : String :=
  " ".intercalate (tokenizeBy (fun c => ¬ c.isWhitespace) s)

/-- Python `re.sub(r'\s+', ' ', s)`: every maximal whitespace run becomes a
single space (the ends are not stripped). -/
def collapseWhitespace (s : String) : String :=
  String.mk (go s.data false)
where
  /-- `inRun` records whether the previous character belonged to a
  whitespace run whose single replacement space was already emitted. -/
  go : List Char → Bool → List Char
    | [], _ => []
    | c :: cs, inRun =>
      if c.isWhitespace then
        if inRun then go cs true else ' ' :: go cs true
      else c :: go cs false

/-- Does the lower-cased text start with `pat` (itself lower-case)?
Helper for the case-insensitive `re.sub` models below. -/
def lowerStartsWith (cs : List Char) (pat : List Char) : Bool :=
  match pat, cs with
  | [], _ => true
  | _ :: _, [] => false
  | p :: ps, c :: cs => p == c.toLower && lowerStartsWith cs ps

/-- First index (if any) at which the lower-cased text contains `pat`
(`pat` given lower-case). -/
def lowerFindIdx (cs : List Char) (pat : List Char) : Option Nat :=
  go cs 0
where
  go : List Char → Nat → Option Nat
    | [], i => if pat = [] then some i else none
    | c :: rest, i =>
      if lowerStartsWith (c :: rest) pat then some i
      else go rest (i + 1)

/-- Python `re.sub(pat₁|pat₂|…, '', s, flags=IGNORECASE)` for an
alternation of literal patterns: scan left to right; at each position the
first alternative that matches is deleted and scanning resumes after it. -/
def subAlternation (pats : List String) (s : String) : String :=
  String.mk (go s.data s.length)
where
  firstMatch (cs : List Char) : Option Nat :=
    (pats.find? (fun p => lowerStartsWith cs (pyLower p).data)).map
      (fun p => p.length)
  go : List Char → Nat → List Char
    | [], _ => []
    | c :: cs, 0 => c :: cs
    | c :: cs, fuel + 1 =>
      match firstMatch (c :: cs) with
      | some n => go ((c :: cs).drop n) fuel
      | none => c :: go cs fuel

/-- Python `re.sub(pre + '.*?' + post, '', s, flags=IGNORECASE)` for
literal `pre`/`post`: repeatedly find the leftmost occurrence of `pre`
followed (lazily, i.e. at its earliest occurrence) by `post`, delete the
whole span, and resume scanning at the deletion point. -/
def subLazySpan (pre post : String) (s : String) : String :=
  String.mk (go s.data s.length)
where
  go : List Char → Nat → List Char
    | [], _ => []
    | c :: cs, 0 => c :: cs
    | c :: cs, fuel + 1 =>
      if lowerStartsWith (c :: cs) (pyLower pre).data then
        let afterPre := (c :: cs).drop pre.length
        match lowerFindIdx afterPre (pyLower post).data with
        | some j => go (afterPre.drop (j + post.length)) fuel
        | none => c :: go cs fuel
      else c :: go cs fuel

/-- Python truthiness of an optional integer (`if x:`): `None` and `0` are
falsy. -/
def truthyOptInt : Option Int → Bool
  | none => false
  | some n => n ≠ 0

/-- Python truthiness of an optional natural number. -/
def truthyOptNat : Option Nat → Bool
  | none => false
  | some n => n ≠ 0

/-- Python truthiness of an optional string. -/
def truthyOptStr : Option String → Bool
  | none => false
  | some s => s ≠ ""

/-- Python truthiness of an optional list (`if x:`): `None` and `[]` are
falsy. -/
def truthyOptList {α : Type} : Option (List α) → Bool
  | none => false
  | some l => !l.isEmpty

/-- `len` of an optional list, `0` when absent (only consulted behind a
truthiness guard). -/
def optListLen {α : Type} : Option (List α) → Nat
  | none => 0
  | some l => l.length

/-- Lookup in an association list used as the model of a Python `dict`
keyed by strings (first binding wins). -/
def dictLookup {α : Type} : List (String × α) → String → Option α
  | [], _ => none
  | (k, v) :: rest, key => if k == key then some v else dictLookup rest key

namespace RecipeModel

/-! ### `app/models/recipe.py` — the canonical recipe data model -/

/-- `RecipeCategory`: the closed category enumeration. -/
inductive RecipeCategory
  | appetizers | mainCourses | sideDishes | soups | stews | salads
  | desserts | breakfastBrunch | snacks | beverages
  deriving DecidableEq, Repr

/-- `RecipeDifficulty`: the closed difficulty enumeration. -/
inductive RecipeDifficulty
  | easy | medium | hard
  deriving DecidableEq, Repr

/-- `Ingredient`: item, amount and unit are required strings, the stage
reference is optional. -/
structure Ingredient where
  item : String
  amount : String
  unit : String
  stage_id : Option Int := none
  deriving DecidableEq, Repr

/-- `Stage`: a titled list of instruction strings. -/
structure Stage where
  title : String
  instructions : List String
  deriving DecidableEq, Repr

/-- The declared (non-computed) fields of `RecipeBase`, after pydantic's
per-field type validation: enum fields already hold enum values,
integer fields hold integers.  `totalTime` is *not* a field — it is the
computed property `RecipeBase.totalTime` below. -/
structure RecipeBase where
  name : String
  description : Option String := none
  category : Option RecipeCategory := none
  difficulty : Option RecipeDifficulty := none
  prepTime : Option Int := none
  cookTime : Option Int := none
  servings : Option Int := none
  stages : Option (List Stage) := none
  instructions : Option (List String) := none
  ingredients : List Ingredient := []
  mainIngredient : Option String := none
  tags : List String := []
  source_url : Option String := none
  comments : Option String := none
  deriving DecidableEq, Repr

/-- The `@computed_field` `RecipeBase.totalTime`: `None` when both parts
are missing, otherwise the sum treating a missing part as `0`. -/
def RecipeBase.totalTime (r : RecipeBase) : Option Int :=
  if r.prepTime = none ∧ r.cookTime = none then none
  else some (r.prepTime.getD 0 + r.cookTime.getD 0)

/-- The `@model_validator(mode='after')` `check_instructions_format`:
rejects neither-present and both-present `stages`/`instructions`. -/
def check_instructions_format (r : RecipeBase) : Except String RecipeBase :=
  if r.stages = none ∧ r.instructions = none then
    .error "Either 'stages' or 'instructions' must be provided"
  else if r.stages ≠ none ∧ r.instructions ≠ none then
    .error "Cannot provide both 'stages' and 'instructions'"
  else .ok r

/-- Caller-visible constructor input: the declared fields *plus* a
caller-supplied `totalTime` entry.  `totalTime` is a computed field, so
pydantic treats a supplied value as an unknown key and (with the default
`extra='ignore'` configuration) silently drops it. -/
structure RecipeInput where
  name : String
  description : Option String := none
  category : Option RecipeCategory := none
  difficulty : Option RecipeDifficulty := none
  prepTime : Option Int := none
  cookTime : Option Int := none
  totalTime : Option Int := none
  servings : Option Int := none
  stages : Option (List Stage) := none
  instructions : Option (List String) := none
  ingredients : List Ingredient := []
  mainIngredient : Option String := none
  tags : List String := []
  source_url : Option String := none
  comments : Option String := none
  deriving DecidableEq, Repr

/-- Field assembly of `RecipeBase(**input)`: every declared field is
copied verbatim; the caller-supplied `totalTime` is discarded. -/
def buildRecipeBase (i : RecipeInput) : RecipeBase :=
  { name := i.name
    description := i.description
    category := i.category
    difficulty := i.difficulty
    prepTime := i.prepTime
    cookTime := i.cookTime
    servings := i.servings
    stages := i.stages
    instructions := i.instructions
    ingredients := i.ingredients
    mainIngredient := i.mainIngredient
    tags := i.tags
    source_url := i.source_url
    comments := i.comments }

/-- `RecipeBase(**input)`: field assembly followed by the after-model
validator.  A raised `ValueError` is the `.error` case. -/
def mkRecipeBase (i : RecipeInput) : Except String RecipeBase :=
  check_instructions_format (buildRecipeBase i)

/-- Is an `Except` value a success?  (Python: the constructor returned
instead of raising.) -/
def exceptOk {ε α : Type} : Except ε α → Bool
  | .ok _ => true
  | .error _ => false

end RecipeModel

namespace UrlProcessor

/-! ### `app/services/url_processor.py` — fetching and content extraction -/

/-- The classification that Python's `ipaddress.ip_address` gives a
hostname that parses as an IP literal.  The stdlib `ipaddress` module is
external to the repository; its three predicates are modelled as abstract
booleans attached to the parsed URL. -/
structure IpClass where
  is_private : Bool
  is_loopback : Bool
  is_reserved : Bool
  deriving DecidableEq, Repr

/-- The result of `urllib.parse.urlparse` on the (already normalized)
URL string: the scheme, the raw netloc, the hostname's IP classification
when the hostname is an IP literal (`none` models the `ValueError`
branch, i.e. a domain name), and the explicit port, if any. -/
structure ParsedUrl where
  scheme : String
  netloc : String
  hostIp : Option IpClass
  port : Option Nat
  deriving DecidableEq, Repr

/-- The fixed denylist of dangerous ports from `validate_url`. -/
def dangerous_ports : List Nat :=
  [22, 23, 25, 53, 135, 139, 445, 993, 995, 1433, 3306, 3389, 5432, 6379]

/-- `UrlProcessor.validate_url`: scheme/netloc sanity, SSRF rejection of
private/loopback/reserved IP literals, and the port denylist.
`parsed.port and parsed.port in dangerous_ports` is Python truthiness:
port `0` short-circuits to falsy. -/
def validate_url (u : ParsedUrl) : Bool :=
  if ¬ ((u.scheme = "http" ∨ u.scheme = "https") ∧ u.netloc ≠ "") then false
  else
    match u.hostIp with
    | some ip =>
      if ip.is_private ∨ ip.is_loopback ∨ ip.is_reserved then false
      else portAllowed u.port
    | none => portAllowed u.port
where
  portAllowed : Option Nat → Bool
    | none => true
    | some p => !(p ≠ 0 && dangerous_ports.contains p)

/-- `max_content_size = 5 * 1024 * 1024`. -/
def max_content_size : Nat := 5 * 1024 * 1024

/-- What one `client.get` call of the external HTTP client produces:
either a response with a status code and body text, or a raised
network-level exception carrying its message. -/
inductive AttemptResult
  | resp (status : Nat) (body : String)
  | netError (msg : String)
  deriving DecidableEq, Repr

/-- Observable outcome of `fetch_content`: the returned content or the
raised error, the number of HTTP requests issued, and the backoff sleeps
performed (in seconds, in order). -/
structure FetchOutcome where
  result : Except String String
  requests : Nat
  sleeps : List ℚ
  deriving Repr

/-- The aggregate error raised after the retry loop is exhausted
(`str(None)` is `"None"` when no attempt recorded an exception). -/
def aggregateError (maxRetries : Nat) (lastError : Option String) : String :=
  "Failed to fetch URL after " ++ toString maxRetries ++
    " attempts. Last error: " ++ lastError.getD "None"

/-- One pass of the `for attempt in range(max_retries)` retry loop of
`fetch_content`.  `remaining` is the number of loop iterations still
available (the current one included); `attempt` is the current index.

* status `200` returns the (possibly truncated) body;
* status `429` sleeps `retry_delay * 2^attempt` and continues, leaving
  `last_error` unchanged;
* any other status raises `HTTPStatusError("HTTP {status}")`, which the
  blanket `except` catches: it records the error and, unless this was the
  last iteration, sleeps the same backoff and continues;
* a network-level exception is handled by the same `except` arm. -/
def fetchLoop (net : Nat → AttemptResult) (retry_delay : ℚ) (maxRetries : Nat) :
    Nat → Nat → Option String → FetchOutcome
  | 0, _, lastError =>
    { result := .error (aggregateError maxRetries lastError)
      requests := 0, sleeps := [] }
  | remaining + 1, attempt, lastError =>
    let onError (e : String) : FetchOutcome :=
      if remaining = 0 then
        { result := .error (aggregateError maxRetries (some e))
          requests := 1, sleeps := [] }
      else
        let rest := fetchLoop net retry_delay maxRetries remaining (attempt + 1) (some e)
        { result := rest.result, requests := rest.requests + 1
          sleeps := retry_delay * 2 ^ attempt :: rest.sleeps }
    match net attempt with
    | .resp status body =>
      if status = 200 then
        let content := if body.length > max_content_size
          then body.take max_content_size else body
        { result := .ok content, requests := 1, sleeps := [] }
      else if status = 429 then
        let rest := fetchLoop net retry_delay maxRetries remaining (attempt + 1) lastError
        { result := rest.result, requests := rest.requests + 1
          sleeps := retry_delay * 2 ^ attempt :: rest.sleeps }
      else onError ("HTTP " ++ toString status)
    | .netError m => onError m

/-- `UrlProcessor.fetch_content` (URL already normalized and parsed):
validation happens before the HTTP client is ever used — an invalid URL
raises `ValueError` with zero requests issued.  `net i` is what the
external client returns for the `i`-th GET. -/
def fetch_content (u : ParsedUrl) (net : Nat → AttemptResult)
    (maxRetries : Nat) (retry_delay : ℚ) : FetchOutcome :=
  if ¬ validate_url u then
    { result := .error "Invalid URL format", requests := 0, sleeps := [] }
  else
    fetchLoop net retry_delay maxRetries maxRetries 0 none

/-- Parsed JSON values, as produced by `json.loads` on the contents of an
`application/ld+json` script tag. -/
inductive Json
  | null
  | bool (b : Bool)
  | num (n : Int)
  | str (s : String)
  | arr (items : List Json)
  | obj (fields : List (String × Json))

/-- Python truthiness of a JSON value. -/
def Json.truthy : Json → Bool
  | .null => false
  | .bool b => b
  | .num n => n ≠ 0
  | .str s => s ≠ ""
  | .arr l => !l.isEmpty
  | .obj l => !l.isEmpty

/-- `dict.get` on an object (callers guarantee the value is an object). -/
def Json.lookup : Json → String → Option Json
  | .obj kvs, k => dictLookup kvs k
  | _, _ => none

/-- How an f-string renders a JSON value: `str`/`int` fields as Python
prints them.  Container- or null-valued fields never reach an f-string on
schema-conformant pages; they are rendered as `""` here. -/
def Json.pyStr : Json → String
  | .str s => s
  | .num n => toString n
  | .bool true => "True"
  | .bool false => "False"
  | _ => ""

/-- First index of the (case-sensitive) literal `pat` in `cs`. -/
def findIdxOf (cs : List Char) (pat : List Char) : Option Nat :=
  go cs 0
where
  startsWithL : List Char → List Char → Bool
    | _, [] => true
    | [], _ :: _ => false
    | c :: cs, p :: ps => c == p && startsWithL cs ps
  go : List Char → Nat → Option Nat
    | [], i => if pat = [] then some i else none
    | c :: rest, i =>
      if startsWithL (c :: rest) pat then some i else go rest (i + 1)

/-- Digits-run parser used by the duration regex model. -/
def digitsToNat (cs : List Char) : Nat :=
  cs.foldl (fun acc c => acc * 10 + (c.toNat - '0'.toNat)) 0

/-- Model of `re.search(r'PT(?:(\d+)H)?(?:(\d+)M)?', s)` evaluated to
minutes: the regex anchors at the first literal `"PT"`, both groups are
optional, and `(\d+)H` backtracks to let `(\d+)M` match the same digits. -/
def searchPTMinutes (s : String) : Option Nat :=
  match findIdxOf s.data "PT".data with
  | none => none
  | some i =>
    let rest := s.data.drop (i + 2)
    let d1 := rest.takeWhile Char.isDigit
    let r1 := rest.dropWhile Char.isDigit
    match r1 with
    | 'H' :: r2 =>
      if d1 = [] then some 0
      else
        let hours := digitsToNat d1
        let d2 := r2.takeWhile Char.isDigit
        let r3 := r2.dropWhile Char.isDigit
        match r3 with
        | 'M' :: _ =>
          if d2 = [] then some (hours * 60)
          else some (hours * 60 + digitsToNat d2)
        | _ => some (hours * 60)
    | 'M' :: _ => if d1 = [] then some 0 else some (digitsToNat d1)
    | _ => some 0

/-- `UrlProcessor._parse_duration`: `None`/falsy inputs give `None`;
string inputs go through the `PT…` regex model. -/
def parse_duration : Option Json → Option Nat
  | none => none
  | some j =>
    if ¬ j.truthy then none
    else match j with
      | .str s => searchPTMinutes s
      | _ => none

/-- `UrlProcessor._is_recipe_schema`: `'Recipe' in type_val` — substring
test for a string `@type`, membership test for a list `@type`, `False`
otherwise. -/
def is_recipe_schema (data : Json) : Bool :=
  match (data.lookup "@type").getD (.str "") with
  | .str s => containsSub s "Recipe"
  | .arr l => l.any (fun j => match j with | .str s => s == "Recipe" | _ => false)
  | _ => false

/-- `UrlProcessor._format_json_ld_recipe`: the deterministic
labeled-section text block built from a JSON-LD Recipe object. -/
def format_json_ld_recipe (data : Json) : String :=
  let name := (data.lookup "name").getD (.str "")
  let nameLines := if name.truthy then ["Recipe: " ++ name.pyStr, ""] else []
  let description := (data.lookup "description").getD (.str "")
  let descLines :=
    if description.truthy then ["Description: " ++ description.pyStr, ""] else []
  let prep := parse_duration (data.lookup "prepTime")
  let cook := parse_duration (data.lookup "cookTime")
  let total := parse_duration (data.lookup "totalTime")
  let timeLines :=
    if truthyOptNat prep ∨ truthyOptNat cook ∨ truthyOptNat total then
      ["Times:"]
      ++ (match prep with
          | some p => if p ≠ 0 then ["- Prep time: " ++ toString p ++ " minutes"] else []
          | none => [])
      ++ (match cook with
          | some c => if c ≠ 0 then ["- Cook time: " ++ toString c ++ " minutes"] else []
          | none => [])
      ++ (match total with
          | some t => if t ≠ 0 then ["- Total time: " ++ toString t ++ " minutes"] else []
          | none => [])
      ++ [""]
    else []
  let yieldA := (data.lookup "recipeYield").getD .null
  let recipeYield := if yieldA.truthy then yieldA else (data.lookup "yield").getD .null
  let yieldLines :=
    if recipeYield.truthy then ["Servings: " ++ recipeYield.pyStr, ""] else []
  let ingredients :=
    match (data.lookup "recipeIngredient").getD (.arr []) with
    | .arr l => l
    | _ => []
  let ingredientLines :=
    if ingredients.isEmpty then []
    else "Ingredients:" :: ingredients.map (fun i => "- " ++ i.pyStr) ++ [""]
  let instructions :=
    match (data.lookup "recipeInstructions").getD (.arr []) with
    | .arr l => l
    | _ => []
  let instructionLines :=
    if instructions.isEmpty then []
    else
      "Instructions:"
      :: instructions.enum.filterMap (fun p =>
          let text := match p.2 with
            | .obj _ => (p.2.lookup "text").getD (.str "")
            | other => .str other.pyStr
          if text.truthy then some (toString (p.1 + 1) ++ ". " ++ text.pyStr)
          else none)
      ++ [""]
  let category := (data.lookup "recipeCategory").getD .null
  let cuisine := (data.lookup "recipeCuisine").getD .null
  let keywords := (data.lookup "keywords").getD .null
  let additionalLines :=
    if category.truthy ∨ cuisine.truthy ∨ keywords.truthy then
      ["Additional Info:"]
      ++ (if category.truthy then ["- Category: " ++ category.pyStr] else [])
      ++ (if cuisine.truthy then ["- Cuisine: " ++ cuisine.pyStr] else [])
      ++ (if keywords.truthy then
            [match keywords with
             | .arr l => "- Keywords: " ++ ", ".intercalate (l.map Json.pyStr)
             | k => "- Keywords: " ++ k.pyStr]
          else [])
    else []
  "\n".intercalate
    (nameLines ++ descLines ++ timeLines ++ yieldLines ++ ingredientLines
      ++ instructionLines ++ additionalLines)

/-- Outcome of inspecting one script tag (or one `@graph` entry): a
formatted recipe, a fall-through to the next script, or an escaping
exception (`AttributeError` on a non-dict), which aborts the whole
JSON-LD extractor via its blanket `except`. -/
inductive ScanStep
  | found (s : String)
  | nextScript
  | abort

/-- The `for item in data['@graph']` scan: a non-dict entry raises when
`.get` is called on it, aborting the extractor. -/
def graphScan : List Json → ScanStep
  | [] => .nextScript
  | item :: rest =>
    match item with
    | .obj _ =>
      if is_recipe_schema item then .found (format_json_ld_recipe item)
      else graphScan rest
    | _ => .abort

/-- Handling of one parsed script: a JSON array is replaced by its first
element (or `{}` when empty); a non-dict raises on `.get`. -/
def scriptStep (j : Json) : ScanStep :=
  let data := match j with | .arr l => l.headD (.obj []) | d => d
  match data with
  | .obj _ =>
    if is_recipe_schema data then .found (format_json_ld_recipe data)
    else
      match data.lookup "@graph" with
      | some (.arr items) => graphScan items
      | some _ => .abort
      | none => .nextScript
  | _ => .abort

/-- `UrlProcessor._extract_json_ld`: walk the parsed script tags; a
`json.JSONDecodeError` (`none` entry) skips to the next tag; any other
exception makes the whole extractor return `None`. -/
def extract_json_ld : List (Option Json) → Option String
  | [] => none
  | none :: rest => extract_json_ld rest
  | some j :: rest =>
    match scriptStep j with
    | .found s => some s
    | .nextScript => extract_json_ld rest
    | .abort => none

/-- An HTML element carrying an `itemtype` attribute, together with the
`(itemprop, text)` pairs of its descendants in document order (bs4's
`find`/`find_all` behaviour is external; only these projections of the
tree are consumed). -/
structure MicroElem where
  itemtype : String
  props : List (String × String)
  deriving DecidableEq, Repr

/-- `UrlProcessor._extract_microdata`: first element whose `itemtype`
matches `.*Recipe.*`, projected into the labeled-section format; an
element yielding no lines gives `None`. -/
def extract_microdata (elems : List MicroElem) : Option String :=
  match elems.find? (fun e => containsSub e.itemtype "Recipe") with
  | none => none
  | some el =>
    let lines :=
      (match dictLookup el.props "name" with
       | some t => ["Recipe: " ++ pyStrip t, ""]
       | none => [])
      ++ (match dictLookup el.props "description" with
          | some t => ["Description: " ++ pyStrip t, ""]
          | none => [])
      ++ (let ings := el.props.filter (fun p => p.1 == "recipeIngredient")
          if ings ≠ [] then
            "Ingredients:" :: ings.map (fun p => "- " ++ pyStrip p.2) ++ [""]
          else [])
      ++ (let instrs := el.props.filter (fun p => p.1 == "recipeInstructions")
          if instrs ≠ [] then
            "Instructions:"
            :: instrs.enum.map (fun p => toString (p.1 + 1) ++ ". " ++ pyStrip p.2.2)
            ++ [""]
          else [])
    if lines ≠ [] then some ("\n".intercalate lines) else none

/-- The recipe-keyword vocabulary of `_score_recipe_content` (weight 2). -/
def recipe_keywords : List String :=
  ["ingredients", "instructions", "directions", "recipe", "cooking",
   "bake", "cook", "preparation", "prep time", "cook time",
   "servings", "serves", "yield", "minutes", "hours",
   "מרכיבים", "הוראות", "מתכון", "בישול", "הכנה"]

/-- The cooking-verb vocabulary of `_score_recipe_content` (weight 1). -/
def cooking_verbs : List String :=
  ["mix", "stir", "add", "combine", "heat", "boil", "simmer",
   "chop", "slice", "dice", "pour", "serve", "season",
   "לערבב", "להוסיף", "לחמם", "לבשל", "לחתוך"]

/-- `UrlProcessor._score_recipe_content`: weighted keyword counts with a
×0.5 penalty under 100 characters and a ×0.8 penalty over 10,000, then
`int()` truncation (the score is non-negative, so truncation = floor). -/
def score_recipe_content (text : String) : Int :=
  if text = "" then 0
  else
    let lower := pyLower text
    let kw : Nat := (recipe_keywords.map (fun k => substrCount lower k * 2)).sum
    let vb : Nat := (cooking_verbs.map (fun v => substrCount lower v)).sum
    let base : ℚ := ((kw + vb : Nat) : ℚ)
    let score : ℚ :=
      if text.length < 100 then base * (1 / 2)
      else if text.length > 10000 then base * (4 / 5)
      else base
    ⌊score⌋

/-- The noise-phrase removal passes of `_clean_extracted_text`, in source
order (each an `re.sub(…, '', flags=IGNORECASE)`). -/
def noiseSub (s : String) : String :=
  let s := subLazySpan "cookie policy" "accept" s
  let s := subAlternation ["advertisement"] s
  let s := subLazySpan "subscribe" "newsletter" s
  let s := subLazySpan "follow us on" "social" s
  let s := subAlternation ["rate this recipe"] s
  let s := subAlternation ["print recipe"] s
  let s := subAlternation ["save recipe"] s
  let s := subAlternation ["jump to recipe"] s
  let s := subAlternation ["פרסומת"] s
  subAlternation ["מדיניות עוגיות"] s

/-- `UrlProcessor._clean_extracted_text`: collapse whitespace, strip the
noise phrases, collapse again, strip the ends. -/
def clean_extracted_text (text : String) : String :=
  if text = "" then ""
  else pyStrip (collapseWhitespace (noiseSub (collapseWhitespace text)))

/-- `UrlProcessor._extract_by_selectors`: score every candidate block (in
selector iteration order), keep the first strictly-best one, and return
it cleaned when truthy and scoring above the threshold 10. -/
def extract_by_selectors (selectorTexts : List String) : Option String :=
  let best := selectorTexts.foldl
    (fun (acc : Option String × Int) t =>
      let sc := score_recipe_content t
      if sc > acc.2 then (some t, sc) else acc)
    (none, 0)
  match best.1 with
  | some t => if t ≠ "" ∧ best.2 > 10 then some (clean_extracted_text t) else none
  | none => none

/-- `UrlProcessor._extract_full_text`: bs4's element decomposition and
`get_text()` are external; `fullText` below is their result, which this
function cleans. -/
def extract_full_text (fullText : String) : String :=
  clean_extracted_text fullText

/-- The projections of the parsed HTML tree (`BeautifulSoup`) that the
four strategies consume: parsed `ld+json` script tags (`none` = parse
error), elements with an `itemtype` attribute, the texts matched by the
heuristic selector list, and the cleaned-tree full text. -/
structure Soup where
  scripts : List (Option Json)
  microElems : List MicroElem
  selectorTexts : List String
  fullText : String

/-- The `{content, extraction_method, confidence}` result dict. -/
structure ExtractedContent where
  content : String
  extraction_method : String
  confidence : ℚ
  deriving DecidableEq, Repr

/-- `UrlProcessor.extract_recipe_content`: the four strategies in fixed
order, first success wins. -/
def extract_recipe_content (soup : Soup) : ExtractedContent :=
  match extract_json_ld soup.scripts with
  | some c => ⟨c, "json-ld", 95 / 100⟩
  | none =>
    match extract_microdata soup.microElems with
    | some c => ⟨c, "microdata", 85 / 100⟩
    | none =>
      match extract_by_selectors soup.selectorTexts with
      | some c => ⟨c, "css-selectors", 75 / 100⟩
      | none => ⟨extract_full_text soup.fullText, "full-text", 1 / 2⟩

end UrlProcessor

namespace RecipeModel

/-- `RecipeResponse`: a processed recipe with its confidence score
(`processing_time`, a wall-clock value, is not modelled). -/
structure RecipeResponse where
  recipe : RecipeBase
  confidence_score : ℚ
  deriving DecidableEq, Repr

end RecipeModel

namespace TextProcessor

open RecipeModel

/-! ### `app/services/text_processor.py` — the heuristic text pipeline

Only `_calculate_confidence` is embedded: it is the function the live
`/recipe/text` endpoint uses to score its result, and the one the
confidence-bound claim is about.  The regex extraction that builds the
`Recipe` it receives is irrelevant to the claims: the bound must hold for
every recipe it can be handed. -/

/-- `TextProcessor._calculate_confidence`: baseline 0.5 plus completeness
bonuses, capped at 1.0.  Truthiness: empty ingredient/instruction/stage
lists count as absent; the three time fields use `is not None`. -/
def _calculate_confidence (recipe : RecipeBase) : ℚ :=
  let nameBonus : ℚ :=
    if recipe.name ≠ "" ∧ recipe.name ≠ "Untitled Recipe" then 1 / 10 else 0
  let ingredientBonus : ℚ :=
    if recipe.ingredients ≠ [] then
      min (1 / 5) ((recipe.ingredients.length : ℚ) * (1 / 50)) else 0
  let instructionBonus : ℚ :=
    if truthyOptList recipe.instructions then
      min (1 / 5) ((optListLen recipe.instructions : ℚ) * (1 / 50))
    else if truthyOptList recipe.stages then
      min (1 / 5) ((optListLen recipe.stages : ℚ) * (1 / 20))
    else 0
  let prepBonus : ℚ := if recipe.prepTime ≠ none then 1 / 20 else 0
  let cookBonus : ℚ := if recipe.cookTime ≠ none then 1 / 20 else 0
  let totalBonus : ℚ := if recipe.totalTime ≠ none then 1 / 20 else 0
  let servingsBonus : ℚ := if recipe.servings ≠ none then 1 / 20 else 0
  let score : ℚ := 1 / 2 + nameBonus + ingredientBonus + instructionBonus
    + prepBonus + cookBonus + totalBonus + servingsBonus
  min score 1

end TextProcessor

namespace GeminiService

open RecipeModel

/-! ### `app/services/gemini_service.py` — AI structured extraction -/

/-- One entry of the (never actually produced) `ingredient_stages`
format that `_calculate_confidence` handles defensively. -/
structure IngredientStageDict where
  ingredients : List Ingredient
  deriving DecidableEq, Repr

/-- The result dict flowing through the service: `model_dump()` of a
validated `RecipeBase` (which includes the computed `totalTime` and never
an `ingredient_stages` key) or the hand-built fallback dict. -/
structure RecipeDict where
  name : String
  description : Option String := none
  category : Option RecipeCategory := none
  difficulty : Option RecipeDifficulty := none
  prepTime : Option Int := none
  cookTime : Option Int := none
  totalTime : Option Int := none
  servings : Option Int := none
  stages : Option (List Stage) := none
  instructions : Option (List String) := none
  ingredients : List Ingredient := []
  ingredient_stages : Option (List IngredientStageDict) := none
  mainIngredient : Option String := none
  tags : List String := []
  source_url : Option String := none
  comments : Option String := none
  deriving DecidableEq, Repr

/-- `extracted_recipe.model_dump()`: every declared field, plus the
computed `totalTime`; `RecipeBase` has no `ingredient_stages` field, so
that key is never present in a dump. -/
def dumpRecipeBase (r : RecipeBase) : RecipeDict :=
  { name := r.name
    description := r.description
    category := r.category
    difficulty := r.difficulty
    prepTime := r.prepTime
    cookTime := r.cookTime
    totalTime := r.totalTime
    servings := r.servings
    stages := r.stages
    instructions := r.instructions
    ingredients := r.ingredients
    ingredient_stages := none
    mainIngredient := r.mainIngredient
    tags := r.tags
    source_url := r.source_url
    comments := r.comments }

/-- The declared-field part of a result dict, as `Recipe(**recipe_data)`
consumes it (`totalTime` and `ingredient_stages` are unknown keys to the
model and are ignored). -/
def undumpRecipeDict (d : RecipeDict) : RecipeBase :=
  { name := d.name
    description := d.description
    category := d.category
    difficulty := d.difficulty
    prepTime := d.prepTime
    cookTime := d.cookTime
    servings := d.servings
    stages := d.stages
    instructions := d.instructions
    ingredients := d.ingredients
    mainIngredient := d.mainIngredient
    tags := d.tags
    source_url := d.source_url
    comments := d.comments }

/-- `GeminiService._convert_to_recipe_model`: re-validate through the
`Recipe` constructor; on any exception fall back to a minimal valid
recipe carrying the original name.  (The generated `id` and
`creationTime` are process identity and wall clock, not modelled.) -/
def _convert_to_recipe_model (d : RecipeDict) : RecipeBase :=
  match check_instructions_format (undumpRecipeDict d) with
  | .ok r => r
  | .error _ =>
    { name := d.name
      instructions := some ["Error processing recipe details"]
      ingredients := [] }

/-- The `website_noise_patterns` substitutions of `_preprocess_text`, in
source order (`re.sub(…, '', flags=IGNORECASE)` each). -/
def websiteNoiseSub (s : String) : String :=
  let s := subAlternation ["שמרו", "שתפו", "דרגו", "לחצו כאן"] s
  let s := subAlternation ["save", "share", "rate", "click here", "print recipe"] s
  let s := subAlternation ["plus", "minus", "+", "-"] s
  subAlternation ["כבר הכנתם?", "רוצים להגיב?"] s

/-- Python `s[a:b]` on character indices. -/
def pySlice (s : String) (a b : Nat) : String :=
  String.mk ((s.data.take b).drop a)

/-- Index of the last `'.'` in the string (`str.rfind`), if any. -/
def lastPeriodIdx (s : String) : Option Nat :=
  s.data.enum.foldl (fun acc p => if p.2 == '.' then some p.1 else acc) acc₀
where
  acc₀ : Option Nat := none

/-- `GeminiService._smart_truncate`.  The `\bIngredients:\s*` style
markers are modelled as case-insensitive substring positions (the word
boundary and trailing-whitespace parts of the regex do not move the match
start).  Note the Python truthiness bug-for-bug fidelity: a marker at
index 0 is falsy and disables strategy 1. -/
def _smart_truncate (text : String) (max_length : Nat) : String :=
  let cs := text.data
  let ingredientsMarker :=
    match lowerFindIdx cs "ingredients:".data with
    | some i => some i
    | none => lowerFindIdx cs "מרכיבים:".data
  let instructionsMarker :=
    match lowerFindIdx cs "instructions:".data with
    | some i => some i
    | none =>
      match lowerFindIdx cs "הוראות:".data with
      | some i => some i
      | none => lowerFindIdx cs "directions:".data
  if truthyOptNat ingredientsMarker ∧ truthyOptNat instructionsMarker then
    let im := ingredientsMarker.getD 0
    let instm := instructionsMarker.getD 0
    let header := pySlice text 0 (min im 2000)
    let remaining := max_length - header.length
    let ingredients := pySlice text im instm
    let instructions := pySlice text instm (min text.length (instm + remaining))
    if ingredients.length + instructions.length ≤ remaining then
      header ++ " " ++ ingredients ++ " " ++ instructions
    else if (ingredients.length : ℚ) < (remaining : ℚ) * (3 / 5) then
      let instructionsBudget := remaining - ingredients.length
      header ++ " " ++ ingredients ++ " " ++ pySlice instructions 0 instructionsBudget
    else
      let ingredientsBudget := (⌊(remaining : ℚ) * (3 / 5)⌋).toNat
      let instructionsBudget := remaining - ingredientsBudget
      header ++ " " ++ pySlice ingredients 0 ingredientsBudget
        ++ " " ++ pySlice instructions 0 instructionsBudget
  else
    let truncated := pySlice text 0 max_length
    match lastPeriodIdx truncated with
    | some lp =>
      if (lp : ℚ) > (max_length : ℚ) * (4 / 5) then pySlice truncated 0 (lp + 1)
      else truncated
    | none => truncated

/-- `GeminiService._preprocess_text`: whitespace normalization
(`' '.join(text.split())`), website-noise removal, re-collapse, and smart
truncation above 20,000 characters. -/
def _preprocess_text (text : String) : String :=
  let text := joinSplit text
  let text := websiteNoiseSub text
  let text := collapseWhitespace text
  if text.length > 20000 then pyStrip (_smart_truncate text 20000)
  else pyStrip text

/-- `GeminiService._generate_cache_key` is the MD5 hex digest of the
input text (`hashlib` is external): modelled as the identity keying,
i.e. the collision-free abstraction of a content hash. -/
def _generate_cache_key (text : String) : String := text

/-- `GeminiService._calculate_confidence` over a result dict: base 0.8,
completeness bonuses, capped at 0.98. -/
def _calculate_confidence (result : RecipeDict) : ℚ :=
  let ingredientsCount : Nat :=
    if result.ingredients ≠ [] then result.ingredients.length
    else if truthyOptList result.ingredient_stages then
      (((result.ingredient_stages.getD []).map
        (fun st => st.ingredients.length)).sum)
    else 0
  let timeCount : Nat :=
    (if result.prepTime ≠ none then 1 else 0)
      + (if result.cookTime ≠ none then 1 else 0)
  let nameBonus : ℚ :=
    if result.name ≠ "" ∧ result.name ≠ "Untitled Recipe" then 5 / 100 else 0
  let ingredientBonus3 : ℚ := if ingredientsCount ≥ 3 then 5 / 100 else 0
  let ingredientBonus8 : ℚ := if ingredientsCount ≥ 8 then 5 / 100 else 0
  let instructionBonus : ℚ :=
    if truthyOptList result.instructions ∧ optListLen result.instructions ≥ 3
      then 5 / 100 else 0
  let stageBonus : ℚ :=
    if truthyOptList result.stages ∧ optListLen result.stages ≥ 2
      then 1 / 10 else 0
  let servingsBonus : ℚ := if result.servings ≠ none then 2 / 100 else 0
  let mainIngredientBonus : ℚ :=
    if truthyOptStr result.mainIngredient then 2 / 100 else 0
  let tagBonus : ℚ := if result.tags ≠ [] then 2 / 100 else 0
  let confidence : ℚ := 8 / 10 + nameBonus + ingredientBonus3 + ingredientBonus8
    + instructionBonus + stageBonus + (timeCount : ℚ) * (3 / 100)
    + servingsBonus + mainIngredientBonus + tagBonus
  min (98 / 100) confidence

/-- `GeminiService._create_fallback_result`: best-effort name from the
first three lines (more than 3 and fewer than 100 characters, no digit in
the first 10), placeholder content, tag `extraction-failed`. -/
def _create_fallback_result (text : String) : RecipeDict :=
  let candidate := ((pySplitOn text "\n").take 3).find? (fun l =>
    let l := pyStrip l
    3 < l.length ∧ l.length < 100 ∧ ¬ (l.data.take 10).any Char.isDigit)
  let name := match candidate with
    | some l => pyStrip l
    | none => "Recipe Extraction Failed"
  { name := name
    description := some "Recipe extraction failed. Please try with cleaner text."
    ingredients := [{ item := "Ingredient extraction failed", amount := "N/A", unit := "N/A" }]
    ingredient_stages := none
    instructions := some ["Recipe processing failed. Please try again with simpler formatting."]
    stages := none
    prepTime := none
    cookTime := none
    servings := none
    tags := ["extraction-failed"]
    mainIngredient := none }

/-- A cached value: the result dict with its recorded confidence score
(the `.get("confidence_score", 0.9)` default is kept for fidelity). -/
structure CacheEntry where
  dict : RecipeDict
  confidence_score : Option ℚ
  deriving DecidableEq, Repr

/-- Observable outcome of one `extract_recipe` call: the returned
response (`none` models Python falling off a zero-iteration retry loop
and returning `None`), the cache afterwards, and the number of external
model invocations performed. -/
structure ExtractOutcome where
  response : Option RecipeResponse
  cache : List (String × CacheEntry)
  modelCalls : Nat

/-- The `for attempt in range(max_retries)` loop of `extract_recipe`.
`model i` is the distilled outcome of invocation `i`: `.ok r` is a
response whose JSON parsed (possibly after repair) and validated as a
`RecipeBase`; `.error` is any attempt failure (API exception, empty
text, bad finish reason, parse/repair failure, validation failure), all
of which the blanket `except` treats identically.  Returns the response,
the entry to cache (successes only), and the invocation count. -/
def extractAttemptLoop (model : Nat → Except String RecipeBase)
    (processed : String) :
    Nat → Nat → Option RecipeResponse × Option CacheEntry × Nat
  | 0, _ => (none, none, 0)
  | remaining + 1, attempt =>
    match model attempt with
    | .ok rb =>
      let result := dumpRecipeBase rb
      let confidence := _calculate_confidence result
      let recipe := _convert_to_recipe_model result
      (some ⟨recipe, confidence⟩, some ⟨result, some confidence⟩, 1)
    | .error _ =>
      if remaining = 0 then
        (some ⟨_convert_to_recipe_model (_create_fallback_result processed), 2 / 10⟩,
          none, 1)
      else
        let rest := extractAttemptLoop model processed remaining (attempt + 1)
        (rest.1, rest.2.1, rest.2.2 + 1)

/-- `GeminiService.extract_recipe`: cache check, preprocessing, the
retry loop, fallback on exhaustion, cache insertion on success (keyed by
the original text). -/
def extract_recipe (cache : List (String × CacheEntry)) (text : String)
    (use_cache : Bool) (max_retries : Nat)
    (model : Nat → Except String RecipeBase) : ExtractOutcome :=
  let key := _generate_cache_key text
  match (if use_cache then dictLookup cache key else none) with
  | some entry =>
    { response := some ⟨_convert_to_recipe_model entry.dict,
        entry.confidence_score.getD (9 / 10)⟩
      cache := cache
      modelCalls := 0 }
  | none =>
    let processed := _preprocess_text text
    let (response, toCache, calls) :=
      extractAttemptLoop model processed max_retries 0
    { response := response
      cache :=
        match (if use_cache then toCache else none) with
        | some entry => (key, entry) :: cache
        | none => cache
      modelCalls := calls }

end GeminiService

namespace ImageProcessingService

open RecipeModel GeminiService

/-! ### `app/services/image_processing_service.py` — image extraction -/

/-- `ImageProcessingService._calculate_image_confidence`: base 0.6 scaled
by the image quality score, completeness bonuses, clamped to
`[0.1, 0.9]`. -/
def _calculate_image_confidence (result : RecipeDict) (image_quality : ℚ) : ℚ :=
  let ingredientsCount := result.ingredients.length
  let timeCount : Nat :=
    (if result.prepTime ≠ none then 1 else 0)
      + (if result.cookTime ≠ none then 1 else 0)
  let nameBonus : ℚ :=
    if result.name ≠ "" ∧ result.name ≠ "Untitled Recipe" then 5 / 100 else 0
  let ingredientBonus3 : ℚ := if ingredientsCount ≥ 3 then 1 / 10 else 0
  let ingredientBonus6 : ℚ := if ingredientsCount ≥ 6 then 5 / 100 else 0
  let instructionBonus : ℚ :=
    if truthyOptList result.instructions ∧ optListLen result.instructions ≥ 2
      then 1 / 10 else 0
  let stageBonus : ℚ :=
    if truthyOptList result.stages ∧ optListLen result.stages ≥ 2
      then 15 / 100 else 0
  let confidence : ℚ := (6 / 10) * image_quality + nameBonus + ingredientBonus3
    + ingredientBonus6 + instructionBonus + stageBonus + (timeCount : ℚ) * (4 / 100)
  min (9 / 10) (max (1 / 10) confidence)

/-- `ImageProcessingService._calculate_image_quality`: base 0.5 with
resolution, aspect and downscale adjustments, clamped to `[0.1, 1.0]`.
`width`/`height` are the processed dimensions, `ow`/`oh` the original
ones (PIL itself is external; only the arithmetic is modelled). -/
def _calculate_image_quality (width height ow oh : Nat) : ℚ :=
  let quality : ℚ := 1 / 2
  let pixelCount := width * height
  let quality :=
    if pixelCount ≥ 1000000 then quality + 2 / 10
    else if pixelCount ≥ 500000 then quality + 1 / 10
    else if pixelCount < 100000 then quality - 2 / 10
    else quality
  let aspect : ℚ := (max width height : ℚ) / (min width height : ℚ)
  let quality :=
    if 12 / 10 ≤ aspect ∧ aspect ≤ 2 then quality + 1 / 10
    else if aspect > 3 then quality - 1 / 10
    else quality
  let quality :=
    if (width, height) ≠ (ow, oh) then
      if ((width * height : Nat) : ℚ) / ((ow * oh : Nat) : ℚ) < 1 / 2 then
        quality - 1 / 10
      else quality
    else quality
  max (1 / 10) (min 1 quality)

/-- `ImageProcessingService._create_image_fallback_result`. -/
def _create_image_fallback_result : RecipeDict :=
  { name := "Image Processing Failed"
    description :=
      some "Could not extract recipe from image. Please try with clearer image or convert to text."
    ingredients := []
    instructions := some ["Image processing failed. Please try again with a clearer image."]
    stages := none
    prepTime := none
    cookTime := none
    servings := none
    tags := ["image-extraction-failed"]
    mainIngredient := none }

/-- `ImageProcessingService._convert_to_recipe_model`: like the Gemini
one but with its own error strings. -/
def _convert_to_recipe_model (d : RecipeDict) : RecipeBase :=
  match check_instructions_format (undumpRecipeDict d) with
  | .ok r => r
  | .error _ =>
    { name := d.name
      instructions := some ["Error processing recipe image"]
      ingredients := [] }

/-- The retry loop of `_extract_recipe_from_single_image`: `model i` is
the distilled outcome of Gemini Vision invocation `i` (`.ok` = parsed and
schema-validated), `quality` the processed image's quality score.
Returns the response, the entry to cache, and the invocation count; the
all-attempts-failed fallback carries confidence exactly 0.1. -/
def singleImageAttemptLoop (model : Nat → Except String RecipeBase) (quality : ℚ) :
    Nat → Nat → Option RecipeResponse × Option CacheEntry × Nat
  | 0, _ => (none, none, 0)
  | remaining + 1, attempt =>
    match model attempt with
    | .ok rb =>
      let result := dumpRecipeBase rb
      let confidence := _calculate_image_confidence result quality
      let recipe := _convert_to_recipe_model result
      (some ⟨recipe, confidence⟩, some ⟨result, some confidence⟩, 1)
    | .error _ =>
      if remaining = 0 then
        (some ⟨_convert_to_recipe_model _create_image_fallback_result, 1 / 10⟩,
          none, 1)
      else
        let rest := singleImageAttemptLoop model quality remaining (attempt + 1)
        (rest.1, rest.2.1, rest.2.2 + 1)

/-- `_extract_recipe_from_single_image` (the image already processed and
validated; its bytes key the cache, modelled like the text key as the
collision-free content `imageKey`).  The cache-hit confidence default is
0.8 here. -/
def extract_recipe_from_single_image (cache : List (String × CacheEntry))
    (imageKey : String) (use_cache : Bool) (quality : ℚ) (max_retries : Nat)
    (model : Nat → Except String RecipeBase) : ExtractOutcome :=
  match (if use_cache then dictLookup cache imageKey else none) with
  | some entry =>
    { response := some ⟨_convert_to_recipe_model entry.dict,
        entry.confidence_score.getD (8 / 10)⟩
      cache := cache
      modelCalls := 0 }
  | none =>
    let (response, toCache, calls) :=
      singleImageAttemptLoop model quality max_retries 0
    { response := response
      cache :=
        match (if use_cache then toCache else none) with
        | some entry => (imageKey, entry) :: cache
        | none => cache
      modelCalls := calls }

/-- `re.sub(lit + r'\d+', '', s, flags=IGNORECASE)`: delete each
occurrence of the literal followed by a non-empty digit run. -/
def subLitDigits (lit : String) (s : String) : String :=
  String.mk (go s.data s.length)
where
  go : List Char → Nat → List Char
    | [], _ => []
    | c :: cs, 0 => c :: cs
    | c :: cs, fuel + 1 =>
      if lowerStartsWith (c :: cs) (pyLower lit).data then
        let afterLit := (c :: cs).drop lit.length
        if afterLit.takeWhile Char.isDigit ≠ [] then
          go (afterLit.dropWhile Char.isDigit) fuel
        else c :: go cs fuel
      else c :: go cs fuel

/-- `ImageProcessingService._clean_extracted_text` (per-page OCR text):
whitespace collapse (after which no newlines remain, making the
`\n\s*\n` pass and the `^page \d+$` MULTILINE pattern no-ops), OCR noise
removal, strip. -/
def _clean_extracted_text (text : String) : String :=
  if text = "" then ""
  else
    let text := collapseWhitespace text
    let text := subAlternation ["[unclear text]"] text
    let text := subLitDigits "page " text
    let text := subAlternation ["continued on next page"] text
    let text := subLitDigits "see page " text
    pyStrip text

/-- Word characters for the `\b…\b` verb tests (`re` counts letters,
digits, the underscore and — under Unicode — Hebrew letters as `\w`). -/
def isWordChar (c : Char) : Bool :=
  c.isAlphanum || c == '_' || (0x590 ≤ c.toNat && c.toNat ≤ 0x5FF)

/-- The maximal word-character runs of a string (for whole-word tests). -/
def wordsOf (s : String) : List String :=
  tokenizeBy isWordChar s

/-- Leading `[-*•\d\s.]+` stripper used by both key extractors. -/
def dropListMarkers (s : String) : String :=
  String.mk (s.data.dropWhile (fun c =>
    c == '-' || c == '*' || c == '•' || c.isDigit || c.isWhitespace || c == '.'))

/-- The English and Hebrew measurement vocabulary of the ingredient-key
regexes. -/
def measurementWords : List String :=
  ["cup", "cups", "tsp", "tbsp", "oz", "lb", "gram", "kg", "ml", "liter",
   "כוס", "כוסות", "כף", "כפות", "גרם", "קילו", "מ\"ל", "ליטר"]

/-- `re.search(r'\d+.*?(measurement)', line)`: some digit occurs strictly
before some occurrence of a measurement word. -/
def digitThenMeasurement (cs : List Char) (meas : List String) : Bool :=
  match cs.findIdx? Char.isDigit with
  | none => false
  | some d =>
    meas.any (fun m => (lowerFindIdx (cs.drop (d + 1)) (pyLower m).data).isSome)

/-- `re.search(r'^\d+\s*[-.]', line)`: digits, optional whitespace, then
a dash or dot. -/
def startsNumberedMarker (cs : List Char) : Bool :=
  let ds := cs.takeWhile Char.isDigit
  let rest := (cs.dropWhile Char.isDigit).dropWhile Char.isWhitespace
  ds ≠ [] && (match rest with
    | c :: _ => c == '-' || c == '.'
    | [] => false)

/-- `re.search(r'^[-*•]\s*', line)`: starts with a bullet. -/
def startsBullet (cs : List Char) : Bool :=
  match cs with
  | c :: _ => c == '-' || c == '*' || c == '•'
  | [] => false

/-- Removal pass `re.sub(r'\d+[\d\s/.-]*(measurement)', '', line)`:
a digit run, filler characters, then a measurement word.  (The regex
backtracks through the greedy filler class; this model takes, from each
digit start, the earliest measurement occurrence reachable through
filler characters — equivalent on the line shapes this heuristic
targets.) -/
def removeMeasurements (s : String) : String :=
  String.mk (go s.data s.length)
where
  isFiller (c : Char) : Bool :=
    c.isDigit || c.isWhitespace || c == '/' || c == '.' || c == '-'
  matchAt (cs : List Char) : Option (List Char) :=
    if cs.takeWhile Char.isDigit = [] then none
    else scan (cs.dropWhile Char.isDigit) (cs.length)
  scan : List Char → Nat → Option (List Char)
    | cs, 0 => measEnd cs
    | cs, fuel + 1 =>
      match measEnd cs with
      | some rest => some rest
      | none =>
        match cs with
        | c :: rest => if isFiller c then scan rest fuel else none
        | [] => none
  measEnd (cs : List Char) : Option (List Char) :=
    (measurementWords.find? (fun m => lowerStartsWith cs (pyLower m).data)).map
      (fun m => cs.drop m.length)
  go : List Char → Nat → List Char
    | [], _ => []
    | c :: cs, 0 => c :: cs
    | c :: cs, fuel + 1 =>
      match matchAt (c :: cs) with
      | some rest => go rest fuel
      | none => c :: go cs fuel

/-- `ImageProcessingService._extract_ingredient_key`. -/
def _extract_ingredient_key (line : String) : Option String :=
  let lineLower := pyStrip (pyLower line)
  if lineLower = "" ∨ lineLower.length < 3 then none
  else
    let cs := lineLower.data
    let isIngredient :=
      digitThenMeasurement cs
        ["cup", "cups", "tsp", "tbsp", "oz", "lb", "gram", "kg", "ml", "liter"]
      || digitThenMeasurement cs
        ["כוס", "כוסות", "כף", "כפות", "גרם", "קילו", "מ\"ל", "ליטר"]
      || startsNumberedMarker cs
      || startsBullet cs
    if isIngredient then
      let cleanLine := removeMeasurements lineLower
      let cleanLine := pyStrip (dropListMarkers cleanLine)
      let ws := (tokenizeBy (fun c => ¬ c.isWhitespace) cleanLine).take 3
      if ws ≠ [] then some (" ".intercalate ws) else none
    else none

/-- The English and Hebrew cooking-verb vocabularies of
`_extract_instruction_key` (whole-word matches). -/
def instructionVerbs : List String :=
  ["mix", "stir", "add", "cook", "bake", "heat", "pour", "chop", "dice", "slice"]

/-- Hebrew cooking verbs of `_extract_instruction_key`. -/
def instructionVerbsHebrew : List String :=
  ["לערבב", "להוסיף", "לבשל", "לאפות", "לחמם", "לשפוך", "לקצוץ", "לחתוך"]

/-- `ImageProcessingService._extract_instruction_key`. -/
def _extract_instruction_key (line : String) : Option String :=
  let lineLower := pyStrip (pyLower line)
  if lineLower = "" ∨ lineLower.length < 10 then none
  else
    let cs := lineLower.data
    let ws := wordsOf lineLower
    let isInstruction :=
      startsNumberedMarker cs
      || startsBullet cs
      || instructionVerbs.any (fun v => ws.contains v)
      || instructionVerbsHebrew.any (fun v => ws.contains v)
    if isInstruction then
      let cleanLine := pyStrip (dropListMarkers lineLower)
      let ks := (tokenizeBy (fun c => ¬ c.isWhitespace) cleanLine).take 5
      if ks ≠ [] then some (" ".intercalate ks) else none
    else none

/-- Which dedup section the post-processing state machine is in. -/
inductive DedupSection
  | ingredients | instructions | neither
  deriving DecidableEq, Repr

/-- The per-line body of `_post_process_consolidated_text`, carried over
the remaining lines with the current section and the two seen-key sets. -/
def postProcessLines :
    List String → DedupSection → List String → List String → List String
  | [], _, _, _ => []
  | line :: rest, sect, seenIng, seenInstr =>
    let l := pyStrip line
    if l = "" then "" :: postProcessLines rest sect seenIng seenInstr
    else
      let lower := pyLower l
      if ["ingredients", "מרכיבים", "חומרים"].any (fun k => containsSub lower k) then
        l :: postProcessLines rest .ingredients seenIng seenInstr
      else if ["instructions", "הוראות", "אופן הכנה", "דרך הכנה"].any
          (fun k => containsSub lower k) then
        l :: postProcessLines rest .instructions seenIng seenInstr
      else if pyStartsWith l "---" then
        l :: postProcessLines rest .neither seenIng seenInstr
      else
        match sect with
        | .ingredients =>
          match _extract_ingredient_key l with
          | some k =>
            if seenIng.contains k then postProcessLines rest sect seenIng seenInstr
            else l :: postProcessLines rest sect (k :: seenIng) seenInstr
          | none => l :: postProcessLines rest sect seenIng seenInstr
        | .instructions =>
          match _extract_instruction_key l with
          | some k =>
            if seenInstr.contains k then postProcessLines rest sect seenIng seenInstr
            else l :: postProcessLines rest sect seenIng (k :: seenInstr)
          | none => l :: postProcessLines rest sect seenIng seenInstr
        | .neither => l :: postProcessLines rest sect seenIng seenInstr

/-- `ImageProcessingService._post_process_consolidated_text`. -/
def _post_process_consolidated_text (text : String) : String :=
  "\n".intercalate (postProcessLines (pySplitOn text "\n") .neither [] [])

/-- Stable sort by page number (`sorted(…, key=lambda x: x['page'])`). -/
def sortByPage (l : List (Nat × String)) : List (Nat × String) :=
  l.foldr insert []
where
  insert (x : Nat × String) : List (Nat × String) → List (Nat × String)
    | [] => [x]
    | y :: ys => if x.1 ≤ y.1 then x :: y :: ys else y :: insert x ys

/-- `ImageProcessingService._consolidate_extracted_texts` over the
collected `(page, text)` pairs. -/
def _consolidate_extracted_texts (texts : List (Nat × String)) : String :=
  match texts with
  | [] => ""
  | [t] => t.2
  | _ =>
    let sorted := sortByPage texts
    let pageParts := (sorted.map (fun p =>
      let cleaned := _clean_extracted_text p.2
      if pyStrip cleaned ≠ "" then
        ["\n--- PAGE " ++ toString p.1 ++ " ---", cleaned]
      else [])).flatten
    let fullText := "\n".intercalate
      (["MULTI-PAGE RECIPE (Consolidated from multiple images)",
        String.mk (List.replicate 50 '=')] ++ pageParts)
    _post_process_consolidated_text fullText

/-- The per-image OCR collection loop of
`_extract_recipe_from_multiple_images`: `pages` holds, per image, what
`_extract_text_from_image` produced — `.error` when image processing
raised (the page is skipped), `.ok t` otherwise, where exhausted OCR
retries yield `""`; pages whose text is whitespace-only contribute
nothing.  Pages are numbered from 1 in original order. -/
def collectPages (pages : List (Except String String)) : List (Nat × String) :=
  go 0 pages
where
  go (i : Nat) : List (Except String String) → List (Nat × String)
    | [] => []
    | p :: rest =>
      match p with
      | .ok t =>
        if pyStrip t ≠ "" then (i + 1, t) :: go (i + 1) rest else go (i + 1) rest
      | .error _ => go (i + 1) rest

/-- `ImageProcessingService._extract_recipe_from_multiple_images`:
all-pages-failed gives the fallback with confidence exactly 0.1;
otherwise the consolidated text goes through `TextProcessor.process_text`
(`processText`, a separate component passed here as the collaborating
function) and the result's confidence is boosted ×1.1, capped at 0.95. -/
def extract_recipe_from_multiple_images (pages : List (Except String String))
    (processText : String → RecipeResponse) : RecipeResponse :=
  let extractedTexts := collectPages pages
  if extractedTexts.isEmpty then
    ⟨_convert_to_recipe_model _create_image_fallback_result, 1 / 10⟩
  else
    let consolidated := _consolidate_extracted_texts extractedTexts
    let result := processText consolidated
    { result with confidence_score := min (95 / 100) (result.confidence_score * (11 / 10)) }

end ImageProcessingService

namespace RecipeRouter

/-! ### `app/config/confidence.py` and `app/routers/recipe.py` -/

/-- `URL_EXTRACTION_CONFIDENCE_WEIGHT` from `app/config/confidence.py`. -/
def URL_EXTRACTION_CONFIDENCE_WEIGHT : ℚ := 3 / 10

/-- `AI_PROCESSING_CONFIDENCE_WEIGHT` from `app/config/confidence.py`. -/
def AI_PROCESSING_CONFIDENCE_WEIGHT : ℚ := 7 / 10

/-- The confidence adjustment of `process_recipe_url`: the weighted
combination of URL-extraction and AI-processing confidence, then the
outer `min` against the AI confidence alone. -/
def blendUrlConfidence (url_confidence original_confidence : ℚ) : ℚ :=
  let combined_confidence :=
    url_confidence * URL_EXTRACTION_CONFIDENCE_WEIGHT
      + original_confidence * AI_PROCESSING_CONFIDENCE_WEIGHT
  min combined_confidence original_confidence

end RecipeRouter

namespace RecipeModel

/-! ### `ImageProcessRequest.validate_image_data` (`app/models/recipe.py`) -/

/-- The `image_data` field: a single base64 string or a list of them. -/
inductive ImageDataField
  | single (s : String)
  | multiple (l : List String)

/-- The list the validator actually walks. -/
def ImageDataField.toList : ImageDataField → List String
  | .single s => [s]
  | .multiple l => l

/-- The base64 alphabet (with padding) accepted by `base64.b64decode`. -/
def isBase64Char (c : Char) : Bool :=
  c.isAlphanum || c == '+' || c == '/' || c == '='

/-- Model of `base64.b64decode` (stdlib, non-strict mode): characters
outside the alphabet are discarded, and decoding fails — `binascii.Error`,
a `ValueError` — exactly when the remaining length is not a multiple of
four. -/
def b64decodable (s : String) : Bool :=
  (s.data.filter isBase64Char).length % 4 == 0

/-- The accepted data-URL mime fragments. -/
def allowedImageTypes : List String :=
  ["image/jpeg", "image/png", "image/webp", "image/gif"]

/-- Splitting a data URL at its first comma (`split(',', 1)`); `none`
models the unpacking `ValueError` when there is no comma. -/
def splitDataUrl (s : String) : Option (String × String) :=
  match pySplitOn s "," with
  | [_] => none
  | [] => none
  | header :: rest => some (header, ",".intercalate rest)

/-- Validation of the `i`-th image entry (0-based; messages are
1-based).  A data-URL header must name an allowed format and its payload
must decode; a bare string must decode. -/
def validateImageEntry (i : Nat) (image_data : String) : Except String Unit :=
  if pyStartsWith image_data "data:" then
    match splitDataUrl image_data with
    | none => .error ("Invalid base64 image data in image " ++ toString (i + 1))
    | some (header, encoded) =>
      if allowedImageTypes.any (fun t => containsSub (pyLower header) t) then
        if b64decodable encoded then .ok ()
        else .error ("Invalid base64 image data in image " ++ toString (i + 1))
      else .error ("Unsupported image format in image " ++ toString (i + 1))
  else
    if b64decodable image_data then .ok ()
    else .error ("Invalid base64 image data in image " ++ toString (i + 1))

/-- Index-free validity of one image entry (the index only affects the
error message): the shape that `validateImageEntry` accepts. -/
def entryValid (s : String) : Bool :=
  if pyStartsWith s "data:" then
    match splitDataUrl s with
    | none => false
    | some (header, encoded) =>
      allowedImageTypes.any (fun t => containsSub (pyLower header) t)
        && b64decodable encoded
  else b64decodable s

/-- The entry loop of `validate_image_data`, first failure wins. -/
def validateImageEntries : Nat → List String → Except String Unit
  | _, [] => .ok ()
  | i, img :: rest =>
    match validateImageEntry i img with
    | .ok () => validateImageEntries (i + 1) rest
    | .error e => .error e

/-- `ImageProcessRequest.validate_image_data`: empty-list and
more-than-10 rejection, then per-entry validation. -/
def validate_image_data (d : ImageDataField) : Except String Unit :=
  let imagesToValidate := d.toList
  if imagesToValidate.isEmpty then
    .error "At least one image is required"
  else if imagesToValidate.length > 10 then
    .error "Maximum 10 images allowed per request"
  else validateImageEntries 0 imagesToValidate

end RecipeModel

/-! ## Theorems settling the claims -/

open RecipeModel UrlProcessor

/-- C1: validation of a recipe succeeds only if exactly one of `stages`
and `instructions` is set — construction with both set fails, construction
with neither set fails, and every recipe that passes validation has
exactly one of the two. -/
theorem claim_C1_structure_exclusivity (i : RecipeInput) :
    (i.stages ≠ none → i.instructions ≠ none →
      exceptOk (mkRecipeBase i) = false)
    ∧ (i.stages = none → i.instructions = none →
      exceptOk (mkRecipeBase i) = false)
    ∧ (∀ r, mkRecipeBase i = .ok r →
      (r.stages ≠ none ∧ r.instructions = none)
        ∨ (r.stages = none ∧ r.instructions ≠ none)) := by
  refine ⟨fun h1 h2 => ?_, fun h1 h2 => ?_, fun r hr => ?_⟩
  · simp [mkRecipeBase, check_instructions_format, buildRecipeBase, exceptOk, h1, h2]
  · simp [mkRecipeBase, check_instructions_format, buildRecipeBase, exceptOk, h1, h2]
  · unfold mkRecipeBase check_instructions_format at hr
    split at hr
    · exact absurd hr (by simp)
    · split at hr
      · exact absurd hr (by simp)
      · rename_i hno hnb
        cases hr
        tauto

/-- Witness for C1: a both-set input and a neither-set input are both
rejected, and a well-formed input passes with exactly one side set. -/
theorem claim_C1_structure_exclusivity_witness :
    exceptOk (mkRecipeBase
      { name := "A"
        stages := some [{ title := "s", instructions := ["x"] }]
        instructions := some ["x"] }) = false
    ∧ exceptOk (mkRecipeBase { name := "A" }) = false
    ∧ (((buildRecipeBase { name := "A", instructions := some ["x"] }).stages ≠ none
          ∧ (buildRecipeBase { name := "A", instructions := some ["x"] }).instructions = none)
        ∨ ((buildRecipeBase { name := "A", instructions := some ["x"] }).stages = none
          ∧ (buildRecipeBase { name := "A", instructions := some ["x"] }).instructions ≠ none)) :=
  ⟨(claim_C1_structure_exclusivity _).1 (by simp) (by simp),
   (claim_C1_structure_exclusivity _).2.1 rfl rfl,
   (claim_C1_structure_exclusivity { name := "A", instructions := some ["x"] }).2.2 _
     (by simp [mkRecipeBase, check_instructions_format, buildRecipeBase])⟩

/-- C2: `totalTime` of every constructed recipe is derived from
`prepTime`/`cookTime` — `None` when both are missing, otherwise the sum
treating a missing part as 0 (in particular the four listed pairs) — and
a caller-supplied `totalTime` never influences it; validation returns the
recipe unchanged, so the same holds for every validated recipe. -/
theorem claim_C2_total_time_derivation (i : RecipeInput) :
    (∀ t, (buildRecipeBase { i with totalTime := t }).totalTime
        = (buildRecipeBase i).totalTime)
    ∧ (buildRecipeBase { i with prepTime := none, cookTime := none }).totalTime = none
    ∧ (buildRecipeBase { i with prepTime := some 15, cookTime := none }).totalTime = some 15
    ∧ (buildRecipeBase { i with prepTime := none, cookTime := some 30 }).totalTime = some 30
    ∧ (buildRecipeBase { i with prepTime := some 15, cookTime := some 30 }).totalTime = some 45
    ∧ (¬ (i.prepTime = none ∧ i.cookTime = none) →
        (buildRecipeBase i).totalTime = some (i.prepTime.getD 0 + i.cookTime.getD 0))
    ∧ (∀ r r', check_instructions_format r = .ok r' → r' = r) := by
  refine ⟨fun t => rfl, ?_, ?_, ?_, ?_, fun h => ?_, fun r r' h => ?_⟩
  · simp [buildRecipeBase, RecipeBase.totalTime]
  · simp [buildRecipeBase, RecipeBase.totalTime]
  · simp [buildRecipeBase, RecipeBase.totalTime]
  · simp [buildRecipeBase, RecipeBase.totalTime]
  · simp only [buildRecipeBase, RecipeBase.totalTime]
    simp only [if_neg h]
  · unfold check_instructions_format at h
    split at h
    · exact absurd h (by simp)
    · split at h
      · exact absurd h (by simp)
      · cases h; rfl

/-- Witness for C2 at a concrete input: prep 15 / cook 30 with a bogus
caller-supplied total of 999 still yields 45, and validation preserves a
concrete recipe. -/
theorem claim_C2_total_time_derivation_witness :
    (buildRecipeBase { name := "A", instructions := some ["x"], prepTime := some 15, cookTime := some 30, totalTime := some 999 }).totalTime = (buildRecipeBase { name := "A", instructions := some ["x"], prepTime := some 15, cookTime := some 30 }).totalTime
    ∧ (buildRecipeBase { name := "A", instructions := some ["x"], prepTime := some 15, cookTime := some 30 }).totalTime = some 45
    ∧ ({ name := "A", instructions := some ["x"] } : RecipeBase) = { name := "A", instructions := some ["x"] } := by
  refine ⟨?_, ?_, ?_⟩
  · exact (claim_C2_total_time_derivation { name := "A", instructions := some ["x"], prepTime := some 15, cookTime := some 30 }).1 (some 999)
  · exact (claim_C2_total_time_derivation { name := "A", instructions := some ["x"], prepTime := some 15, cookTime := some 30 }).2.2.2.2.2.1 (by simp)
  · exact (claim_C2_total_time_derivation { name := "A", instructions := some ["x"] }).2.2.2.2.2.2 { name := "A", instructions := some ["x"] } { name := "A", instructions := some ["x"] } (by simp [check_instructions_format])

/-- C3: a URL whose host is a private/loopback/reserved IP literal fails
validation, a URL whose explicit port is denylisted fails validation, and
`fetch_content` on any URL failing validation raises before issuing a
single network request. -/
theorem claim_C3_ssrf_invariant (u : ParsedUrl) :
    (∀ ip, u.hostIp = some ip →
      (ip.is_private = true ∨ ip.is_loopback = true ∨ ip.is_reserved = true) →
      validate_url u = false)
    ∧ (∀ p, u.port = some p → p ∈ dangerous_ports → validate_url u = false)
    ∧ (validate_url u = false →
      ∀ net maxRetries retry_delay,
        (fetch_content u net maxRetries retry_delay).requests = 0
        ∧ (fetch_content u net maxRetries retry_delay).result
            = .error "Invalid URL format") := by
  refine ⟨fun ip hip hflag => ?_, fun p hp hmem => ?_, fun hv net mr rd => ?_⟩
  · unfold validate_url
    split
    · rfl
    · rw [hip]
      have : (ip.is_private ∨ ip.is_loopback ∨ ip.is_reserved) = true := by
        rcases hflag with h | h | h <;> simp [h]
      simp [this]
  · have hp0 : p ≠ 0 := by
      intro h0
      subst h0
      simp [dangerous_ports] at hmem
    have hcontains : dangerous_ports.contains p = true := by
      exact List.elem_iff.mpr hmem
    unfold validate_url
    split
    · rfl
    · have hport : validate_url.portAllowed u.port = false := by
        rw [hp]
        simp [validate_url.portAllowed, hp0, hcontains, hmem]
      split
      · split
        · rfl
        · exact hport
      · exact hport
  · rw [fetch_content, if_pos (by simp [hv])]
    exact ⟨rfl, rfl⟩

/-- Witness for C3: a loopback IP-literal URL and a port-22 URL both fail
validation, and fetching the loopback URL issues zero requests even
though the network would answer 200. -/
theorem claim_C3_ssrf_invariant_witness :
    validate_url ⟨"https", "127.0.0.1", some ⟨true, true, false⟩, none⟩ = false
    ∧ validate_url ⟨"https", "example.com:22", none, some 22⟩ = false
    ∧ (fetch_content ⟨"https", "127.0.0.1", some ⟨true, true, false⟩, none⟩
        (fun _ => .resp 200 "ok") 3 1).requests = 0 := by
  have h1 := (claim_C3_ssrf_invariant ⟨"https", "127.0.0.1", some ⟨true, true, false⟩, none⟩).1
    ⟨true, true, false⟩ rfl (Or.inl rfl)
  refine ⟨h1, ?_, ?_⟩
  · exact (claim_C3_ssrf_invariant ⟨"https", "example.com:22", none, some 22⟩).2.1
      22 rfl (by simp [dangerous_ports])
  · exact ((claim_C3_ssrf_invariant _).2.2 h1 (fun _ => .resp 200 "ok") 3 1).1

/-- C5: the URL-path confidence blend equals
`min(ai, 0.3·url + 0.7·ai)` and in particular never exceeds the AI-stage
confidence. -/
theorem claim_C5_url_confidence_blend (u a : ℚ) :
    RecipeRouter.blendUrlConfidence u a = min a (3 / 10 * u + 7 / 10 * a)
    ∧ RecipeRouter.blendUrlConfidence u a ≤ a := by
  unfold RecipeRouter.blendUrlConfidence RecipeRouter.URL_EXTRACTION_CONFIDENCE_WEIGHT
    RecipeRouter.AI_PROCESSING_CONFIDENCE_WEIGHT
  constructor
  · rw [min_comm]
    ring_nf
  · exact min_le_right _ _

/-- C6: on HTML where both the JSON-LD strategy and the microdata
strategy succeed, `extract_recipe_content` returns the JSON-LD result
with method `"json-ld"` and confidence 0.95 — the strategies are tried in
fixed order and the first success wins. -/
theorem claim_C6_strategy_precedence (soup : Soup) (c m : String)
    (hj : extract_json_ld soup.scripts = some c)
    (hm : extract_microdata soup.microElems = some m) :
    extract_recipe_content soup = ⟨c, "json-ld", 95 / 100⟩ := by
  unfold extract_recipe_content
  rw [hj]

/-- Witness for C6: a page carrying both a JSON-LD Recipe object and a
microdata Recipe element yields the JSON-LD text block. -/
theorem claim_C6_strategy_precedence_witness :
    extract_recipe_content
      ⟨[some (.obj [("@type", .str "Recipe"), ("name", .str "Cake")])],
       [⟨"http://schema.org/Recipe", [("name", "Tart")]⟩], [], ""⟩
      = ⟨"Recipe: Cake\n", "json-ld", 95 / 100⟩ :=
  claim_C6_strategy_precedence _ "Recipe: Cake\n" "Recipe: Tart\n" (by rfl) (by rfl)

/-- Counterexample to C7 as stated: a constant HTTP 404 is *not* fatal on
first occurrence — three requests are issued (with backoff sleeps between
them), not one, before the aggregate error is raised. -/
theorem claim_C7_counterexample :
    (fetch_content ⟨"https", "example.com", none, none⟩
        (fun _ => .resp 404 "") 3 1).requests = 3
    ∧ (fetch_content ⟨"https", "example.com", none, none⟩
        (fun _ => .resp 404 "") 3 1).requests ≠ 1
    ∧ (fetch_content ⟨"https", "example.com", none, none⟩
        (fun _ => .resp 404 "") 3 1).result
      = .error "Failed to fetch URL after 3 attempts. Last error: HTTP 404"
    ∧ (fetch_content ⟨"https", "example.com", none, none⟩
        (fun _ => .resp 404 "") 3 1).sleeps = [1, 2] := by
  have h : fetch_content ⟨"https", "example.com", none, none⟩
      (fun _ => .resp 404 "") 3 1
      = ⟨.error "Failed to fetch URL after 3 attempts. Last error: HTTP 404", 3,
         [(1 : ℚ) * 2 ^ 0, 1 * 2 ^ 1]⟩ := rfl
  refine ⟨by rw [h], by rw [h]; norm_num, by rw [h], by rw [h]; norm_num⟩

/-- C7 amended: an HTTP status other than 200 and 429 raises an
`HTTPStatusError` that the retry loop's blanket `except` catches — it is
retried with exponential backoff `base_delay * 2^attempt` exactly like a
transient failure, and only after `max_retries` (default 3) attempts does
`fetch_content` fail, with the aggregate error carrying the last HTTP
error. -/
theorem claim_C7_retry_on_status_amended (u : ParsedUrl)
    (hu : validate_url u = true) (s : Nat) (hs200 : s ≠ 200) (hs429 : s ≠ 429)
    (body : String) (base : ℚ) :
    fetch_content u (fun _ => .resp s body) 3 base
      = ⟨.error ("Failed to fetch URL after 3 attempts. Last error: HTTP " ++ toString s),
         3, [base * 2 ^ 0, base * 2 ^ 1]⟩ := by
  unfold fetch_content
  rw [if_neg (by simp [hu])]
  simp [fetchLoop, hs200, hs429, aggregateError]
  rw [← String.append_assoc]
  rfl

/-- Witness for the amended C7 at the concrete 404 scenario. -/
theorem claim_C7_retry_on_status_amended_witness :
    fetch_content ⟨"https", "example.com", none, none⟩ (fun _ => .resp 404 "") 3 1
      = ⟨.error "Failed to fetch URL after 3 attempts. Last error: HTTP 404", 3,
         [1 * 2 ^ 0, 1 * 2 ^ 1]⟩ :=
  claim_C7_retry_on_status_amended ⟨"https", "example.com", none, none⟩ rfl
    404 (by decide) (by decide) "" 1

/-- Counterexample to C8 as stated: with every attempt failing on the
input `"Recipe Title\nSome content"`, the fallback recipe's name is *not*
`"Recipe Title"` — preprocessing collapses the newline before the
fallback scrapes the first line, so the name is the whole collapsed
text. -/
theorem claim_C8_counterexample :
    (GeminiService.extract_recipe [] "Recipe Title\nSome content" true 3
        (fun _ => .error "API Error")).response.map (fun r => r.recipe.name)
      ≠ some "Recipe Title"
    ∧ (GeminiService.extract_recipe [] "Recipe Title\nSome content" true 3
        (fun _ => .error "API Error")).response.map (fun r => r.recipe.name)
      = some "Recipe Title Some content" := by
  constructor
  · intro h
    have heval : (GeminiService.extract_recipe [] "Recipe Title\nSome content" true 3
        (fun _ => .error "API Error")).response.map (fun r => r.recipe.name)
      = some "Recipe Title Some content" := rfl
    rw [heval] at h
    exact absurd (Option.some.inj h) (by decide)
  · rfl

/-- C8 amended: when every AI invocation attempt fails (3 attempts) for
the input `"Recipe Title\nSome content"`, the fallback recipe's name is
the whitespace-collapsed input `"Recipe Title Some content"`, the
confidence is exactly 0.2, the tags are `["extraction-failed"]`, and
exactly 3 model invocations were made. -/
theorem claim_C8_fallback_amended (errs : Nat → String) :
    (GeminiService.extract_recipe [] "Recipe Title\nSome content" true 3
        (fun i => .error (errs i))).response.map (fun r => r.recipe.name)
      = some "Recipe Title Some content"
    ∧ (GeminiService.extract_recipe [] "Recipe Title\nSome content" true 3
        (fun i => .error (errs i))).response.map (fun r => r.confidence_score)
      = some (2 / 10)
    ∧ (GeminiService.extract_recipe [] "Recipe Title\nSome content" true 3
        (fun i => .error (errs i))).response.map (fun r => r.recipe.tags)
      = some ["extraction-failed"]
    ∧ (GeminiService.extract_recipe [] "Recipe Title\nSome content" true 3
        (fun i => .error (errs i))).modelCalls = 3 :=
  ⟨rfl, rfl, rfl, rfl⟩

/-- C9: for two successive calls on the same text with `use_cache=true`,
where the first call's model invocation succeeds, the first call makes
exactly one model invocation, the second makes none (so exactly one
occurs across the two calls), and the second returns a recipe with the
same name and ingredients and the cached confidence score. -/
theorem claim_C9_cache_idempotence (text : String) (rb : RecipeModel.RecipeBase)
    (laterModel : Nat → Except String RecipeModel.RecipeBase) :
    (GeminiService.extract_recipe [] text true 3 (fun _ => .ok rb)).modelCalls = 1
    ∧ (GeminiService.extract_recipe
        (GeminiService.extract_recipe [] text true 3 (fun _ => .ok rb)).cache
        text true 3 laterModel).modelCalls = 0
    ∧ (GeminiService.extract_recipe
        (GeminiService.extract_recipe [] text true 3 (fun _ => .ok rb)).cache
        text true 3 laterModel).response.map (fun r => r.recipe.name)
      = (GeminiService.extract_recipe [] text true 3
          (fun _ => .ok rb)).response.map (fun r => r.recipe.name)
    ∧ (GeminiService.extract_recipe
        (GeminiService.extract_recipe [] text true 3 (fun _ => .ok rb)).cache
        text true 3 laterModel).response.map (fun r => r.recipe.ingredients)
      = (GeminiService.extract_recipe [] text true 3
          (fun _ => .ok rb)).response.map (fun r => r.recipe.ingredients)
    ∧ (GeminiService.extract_recipe
        (GeminiService.extract_recipe [] text true 3 (fun _ => .ok rb)).cache
        text true 3 laterModel).response.map (fun r => r.confidence_score)
      = some (GeminiService._calculate_confidence (GeminiService.dumpRecipeBase rb)) := by
  have hfirst : GeminiService.extract_recipe [] text true 3 (fun _ => .ok rb)
      = { response := some ⟨GeminiService._convert_to_recipe_model
            (GeminiService.dumpRecipeBase rb),
            GeminiService._calculate_confidence (GeminiService.dumpRecipeBase rb)⟩
          cache := [(text, ⟨GeminiService.dumpRecipeBase rb,
            some (GeminiService._calculate_confidence (GeminiService.dumpRecipeBase rb))⟩)]
          modelCalls := 1 } := rfl
  have hsecond : GeminiService.extract_recipe
      [(text, (⟨GeminiService.dumpRecipeBase rb,
        some (GeminiService._calculate_confidence (GeminiService.dumpRecipeBase rb))⟩
          : GeminiService.CacheEntry))]
      text true 3 laterModel
      = { response := some ⟨GeminiService._convert_to_recipe_model
            (GeminiService.dumpRecipeBase rb),
            GeminiService._calculate_confidence (GeminiService.dumpRecipeBase rb)⟩
          cache := [(text, ⟨GeminiService.dumpRecipeBase rb,
            some (GeminiService._calculate_confidence (GeminiService.dumpRecipeBase rb))⟩)]
          modelCalls := 0 } := by
    unfold GeminiService.extract_recipe GeminiService._generate_cache_key
    simp [dictLookup]
  rw [hfirst]
  rw [hsecond]
  exact ⟨rfl, rfl, rfl, rfl, rfl⟩

theorem exceptOk_validateImageEntry (i : Nat) (s : String) :
    exceptOk (validateImageEntry i s) = entryValid s := by
  unfold validateImageEntry entryValid
  by_cases h1 : pyStartsWith s "data:" = true
  · simp only [h1, if_true]
    rcases h : splitDataUrl s with _ | ⟨header, encoded⟩
    · simp [exceptOk]
    · by_cases h2 : (allowedImageTypes.any fun t => containsSub (pyLower header) t) = true
      · by_cases h3 : b64decodable encoded = true
        · simp [h2, h3, exceptOk]
        · simp [h2, h3, exceptOk]
      · simp [h2, exceptOk]
  · simp only [Bool.not_eq_true] at h1
    by_cases h4 : b64decodable s = true
    · simp [h1, h4, exceptOk]
    · simp [h1, h4, exceptOk]

theorem exceptOk_validateImageEntries (l : List String) :
    ∀ i, exceptOk (validateImageEntries i l) = l.all entryValid := by
  induction l with
  | nil => intro i; rfl
  | cons s rest ih =>
    intro i
    have hs := exceptOk_validateImageEntry i s
    rcases h : validateImageEntry i s with e | u
    · rw [h] at hs
      unfold validateImageEntries
      rw [h]
      simp only [exceptOk] at hs ⊢
      simp [List.all_cons, ← hs]
    · rw [h] at hs
      unfold validateImageEntries
      rw [h]
      simp only [exceptOk] at hs
      simp [List.all_cons, ← hs, ih (i + 1)]

/-- C10: the image endpoint's request validation rejects an empty list,
a list of more than 10 images, and any request containing an invalid
entry (a bare string that does not decode as base64, or a data URL whose
header names a disallowed format); consequently every accepted request
carries between 1 and 10 images inclusive. -/
theorem claim_C10_image_request_validation (d : ImageDataField) :
    (d.toList = [] → exceptOk (validate_image_data d) = false)
    ∧ (d.toList.length > 10 → exceptOk (validate_image_data d) = false)
    ∧ ((∃ s ∈ d.toList, ∀ i, exceptOk (validateImageEntry i s) = false) →
        exceptOk (validate_image_data d) = false)
    ∧ (∀ i s, pyStartsWith s "data:" = false → b64decodable s = false →
        exceptOk (validateImageEntry i s) = false)
    ∧ (∀ i s header encoded, pyStartsWith s "data:" = true →
        splitDataUrl s = some (header, encoded) →
        allowedImageTypes.any (fun t => containsSub (pyLower header) t) = false →
        exceptOk (validateImageEntry i s) = false)
    ∧ (exceptOk (validate_image_data d) = true →
        1 ≤ d.toList.length ∧ d.toList.length ≤ 10) := by
  refine ⟨fun he => ?_, fun hlen => ?_, fun hex => ?_, fun i s h1 h2 => ?_,
    fun i s header encoded h1 h2 h3 => ?_, fun hok => ?_⟩
  · simp [validate_image_data, he, exceptOk]
  · have hne : d.toList.isEmpty = false := by
      cases h : d.toList with
      | nil => rw [h] at hlen; simp at hlen
      | cons a r => simp [h]
    simp [validate_image_data, hne, hlen, exceptOk]
  · obtain ⟨s, hs, hinv⟩ := hex
    have hsv : entryValid s = false := by
      have h0 := exceptOk_validateImageEntry 0 s
      rw [hinv 0] at h0
      exact h0.symm
    have hall : d.toList.all entryValid = false := by
      rw [List.all_eq_false]
      exact ⟨s, hs, by simp [hsv]⟩
    by_cases hemp : d.toList.isEmpty
    · simp [validate_image_data, hemp, exceptOk]
    · by_cases hlen : d.toList.length > 10
      · simp [validate_image_data, hemp, hlen, exceptOk]
      · simp [validate_image_data, hemp, hlen, exceptOk_validateImageEntries, hall]
  · rw [exceptOk_validateImageEntry]
    simp [entryValid, h1, h2]
  · rw [exceptOk_validateImageEntry]
    simp [entryValid, h1, h2, h3]
  · by_cases hemp : d.toList.isEmpty
    · simp [validate_image_data, hemp, exceptOk] at hok
    · by_cases hlen : d.toList.length > 10
      · simp [validate_image_data, hemp, hlen, exceptOk] at hok
      · constructor
        · cases h : d.toList with
          | nil => rw [h] at hemp; simp at hemp
          | cons a r => simp [h]
        · omega

/-- Witness for C10 at concrete requests: the empty list, an 11-image
list, a non-decodable entry, a bad-format data URL, and an accepted
single-image request within bounds. -/
theorem claim_C10_image_request_validation_witness :
    exceptOk (validate_image_data (.multiple [])) = false
    ∧ exceptOk (validate_image_data (.multiple (List.replicate 11 "aGVsbG8="))) = false
    ∧ exceptOk (validateImageEntry 0 "aGVsbG8") = false
    ∧ exceptOk (validateImageEntry 0 "data:text/plain;base64,aGVsbG8=") = false
    ∧ 1 ≤ (ImageDataField.single "aGVsbG8=").toList.length
      ∧ (ImageDataField.single "aGVsbG8=").toList.length ≤ 10 := by
  refine ⟨?_, ?_, ?_, ?_, ?_⟩
  · exact (claim_C10_image_request_validation (.multiple [])).1 rfl
  · exact (claim_C10_image_request_validation
      (.multiple (List.replicate 11 "aGVsbG8="))).2.1 (by simp [ImageDataField.toList])
  · exact (claim_C10_image_request_validation (.single "x")).2.2.2.1 0 "aGVsbG8" rfl rfl
  · exact (claim_C10_image_request_validation (.single "x")).2.2.2.2.1 0
      "data:text/plain;base64,aGVsbG8=" "data:text/plain;base64" "aGVsbG8=" rfl rfl rfl
  · exact (claim_C10_image_request_validation (.single "aGVsbG8=")).2.2.2.2.2 rfl

/-- Counterexample to C4 as stated: on the live text path the score of a
complete recipe reaches 1.0, above the claimed 0.98 ceiling —
`TextProcessor._calculate_confidence` caps at 1.0, not 0.98. -/
theorem claim_C4_counterexample :
    TextProcessor._calculate_confidence { name := "Chocolate Cake", instructions := some ["a", "b", "c", "d", "e", "f", "g", "h", "i", "j"], ingredients := List.replicate 10 ⟨"flour", "2", "cups", none⟩, prepTime := some 15, cookTime := some 30, servings := some 4 } = 1
    ∧ ¬ (TextProcessor._calculate_confidence { name := "Chocolate Cake", instructions := some ["a", "b", "c", "d", "e", "f", "g", "h", "i", "j"], ingredients := List.replicate 10 ⟨"flour", "2", "cups", none⟩, prepTime := some 15, cookTime := some 30, servings := some 4 } ≤ 98 / 100) := by
  have h : TextProcessor._calculate_confidence { name := "Chocolate Cake", instructions := some ["a", "b", "c", "d", "e", "f", "g", "h", "i", "j"], ingredients := List.replicate 10 ⟨"flour", "2", "cups", none⟩, prepTime := some 15, cookTime := some 30, servings := some 4 } = 1 := by
    unfold TextProcessor._calculate_confidence
    norm_num [RecipeModel.RecipeBase.totalTime, truthyOptList, optListLen, min_def]
    split_ifs <;> simp_all <;> norm_num
  exact ⟨h, by rw [h]; norm_num⟩

theorem collectPages_go_all_error (msgs : List String) :
    ∀ i, ImageProcessingService.collectPages.go i (msgs.map Except.error) = [] := by
  induction msgs with
  | nil => intro i; rfl
  | cons m rest ih =>
    intro i
    simp only [List.map_cons, ImageProcessingService.collectPages.go]
    exact ih (i + 1)

/-- C4 amended: confidence scores stay within their caps — the live
text-path heuristic is capped at 1.0 (it can reach 1.0, see the
counterexample), the Gemini structured-output score at 0.98, the image
score within [0.1, 0.9] — and the fallback constants are exactly 0.2
(text), 0.1 (single image) and 0.1 (multi-image with every page's OCR
failed). -/
theorem claim_C4_confidence_bounds_amended :
    (∀ r : RecipeBase, 0 ≤ TextProcessor._calculate_confidence r
        ∧ TextProcessor._calculate_confidence r ≤ 1)
    ∧ (∀ d : GeminiService.RecipeDict, 0 ≤ GeminiService._calculate_confidence d
        ∧ GeminiService._calculate_confidence d ≤ 98 / 100)
    ∧ (∀ (d : GeminiService.RecipeDict) (q : ℚ),
        1 / 10 ≤ ImageProcessingService._calculate_image_confidence d q
        ∧ ImageProcessingService._calculate_image_confidence d q ≤ 9 / 10)
    ∧ (∀ (text : String) (errs : Nat → String),
        (GeminiService.extract_recipe [] text true 3
          (fun i => .error (errs i))).response.map (fun r => r.confidence_score)
        = some (2 / 10))
    ∧ (∀ (imageKey : String) (q : ℚ) (errs : Nat → String),
        (ImageProcessingService.extract_recipe_from_single_image [] imageKey true q 3
          (fun i => .error (errs i))).response.map (fun r => r.confidence_score)
        = some (1 / 10))
    ∧ (∀ (msgs : List String) (processText : String → RecipeModel.RecipeResponse),
        (ImageProcessingService.extract_recipe_from_multiple_images
          (msgs.map Except.error) processText).confidence_score = 1 / 10) := by
  refine ⟨fun r => ?_, fun d => ?_, fun d q => ?_, fun text errs => rfl,
    fun imageKey q errs => rfl, fun msgs pt => ?_⟩
  · unfold TextProcessor._calculate_confidence
    dsimp only
    constructor
    · refine le_min ?_ (by norm_num)
      repeat' apply add_nonneg
      all_goals try norm_num
      all_goals split_ifs <;> norm_num
    · exact min_le_right _ _
  · unfold GeminiService._calculate_confidence
    dsimp only
    constructor
    · refine le_min ?_ ?_
      · norm_num
      · repeat' apply add_nonneg
        all_goals try positivity
        all_goals split_ifs <;> norm_num
    · exact min_le_left _ _
  · unfold ImageProcessingService._calculate_image_confidence
    dsimp only
    exact ⟨le_min (by norm_num) (le_max_left _ _), min_le_left _ _⟩
  · unfold ImageProcessingService.extract_recipe_from_multiple_images
      ImageProcessingService.collectPages
    rw [collectPages_go_all_error msgs 0]
    rfl
